import Mathlib

/-!
Shallow embedding of the MEF metric-calculation pipeline of
`src/HRSIDT-Calc-Loop.ipynb` (HighRes-Sea-Ice-Diagnostic-Toolset).

Modelling conventions:
* A gridded float value is `Val := Option ℚ`; `none` stands for IEEE NaN
  (flagged or masked data).  All array values produced by the pipeline
  before the final division are finite rationals or NaN, so `Option ℚ`
  is a faithful value domain for the arrays.
* Elementwise xarray arithmetic (`-`, `*`, `**2`) propagates NaN, which
  `osub`/`omul`/`osq` mirror.
* `DataArray.sum(dim)` uses skipna semantics: NaN entries contribute
  nothing and an all-NaN (or empty) slice sums to `0`; `nansum` mirrors
  this and always returns a rational.
* The final step `1 - (num/den)` is ordinary float arithmetic on the two
  finite sums, where division can produce NaN (0/0) or ±infinity (x/0,
  x ≠ 0).  `MEFVal` carries these outcomes and `fdiv`/`oneSub` mirror
  the numpy semantics.
* A time series on the reference grid is a function
  `Fin T → Fin C → Val` (time index, flattened cell index).
-/

/-- A float cell value: `none` is IEEE NaN. -/
abbrev Val := Option ℚ

/-- Elementwise subtraction with NaN propagation. -/
def osub : Val → Val → Val
  | some a, some b => some (a - b)
  | _, _ => none

/-- Elementwise multiplication with NaN propagation. -/
def omul : Val → Val → Val
  | some a, some b => some (a * b)
  | _, _ => none

/-- Elementwise square (`** 2`). -/
def osq (v : Val) : Val := omul v v

/-- The contribution of one entry to a skipna sum: NaN contributes `0`. -/
def contrib (v : Val) : ℚ := v.getD 0

/-- Skipna sum (`DataArray.sum` with default `skipna=True`):
NaN entries are ignored, an all-NaN list sums to `0`. -/
def nansum (l : List Val) : ℚ := l.foldr (fun v acc => contrib v + acc) 0

/-- Number of non-NaN entries (`DataArray.count`). -/
def nancount (l : List Val) : ℕ := (l.filter (fun v => v.isSome)).length

/-- Skipna mean (`DataArray.mean`): NaN when no valid entry exists. -/
def nanmean (l : List Val) : Val :=
  if nancount l = 0 then none else some (nansum l / (nancount l : ℚ))

/-- Outcome of the final MEF float expression: a finite value, NaN, or
positive/negative infinity. -/
inductive MEFVal where
  | val : ℚ → MEFVal
  | nan : MEFVal
  | pinf : MEFVal
  | ninf : MEFVal
deriving DecidableEq

/-- numpy division `num/den` of two finite floats: `0/0` is NaN and
`x/0` with `x ≠ 0` is a signed infinity. -/
def fdiv (num den : ℚ) : MEFVal :=
  if den = 0 then
    if num = 0 then .nan else if 0 < num then .pinf else .ninf
  else .val (num / den)

/-- The outer `1 - x` of the MEF expression under IEEE semantics. -/
def oneSub : MEFVal → MEFVal
  | .val q => .val (1 - q)
  | .nan => .nan
  | .pinf => .ninf
  | .ninf => .pinf

/-- A time series of gridded values on the reference grid. -/
abbrev Series (T C : ℕ) := Fin T → Fin C → Val

/-! ## GridReference (notebook cell 2)
`mask = xr.where(ref_ds.landmask > 0, nan, 1)` -/

/-- Land mask built from the ancillary land-mask field: NaN over land
(`landmask > 0`), `1` over ocean. -/
def mask {C : ℕ} (landmask : Fin C → ℚ) (c : Fin C) : Val :=
  if 0 < landmask c then none else some 1

/-! ## ObservationBaseline (notebook cell 3)
```
obs_da = obs_da.where(obs_da <= 2.51, other=nan)
count = obs_da.where(obs_da>0).count('tdim')
mincount = xr.where(count <= 20, nan, 1)
obs_da = obs_da * mincount
o_mean = obs_da.mean(dim='tdim')
```
-/

/-- Flag step: values above the validity threshold `2.51` become NaN. -/
def flagObs {T C : ℕ} (raw : Series T C) : Series T C := fun t c =>
  match raw t c with
  | some q => if q ≤ 2.51 then some q else none
  | none => none

/-- Per-cell count of valid (`> 0`) observations over the whole window. -/
def validCount {T C : ℕ} (o : Series T C) (c : Fin C) : ℕ :=
  ((List.finRange T).filter (fun t =>
    match o t c with
    | some q => decide (0 < q)
    | none => false)).length

/-- `mincount`: NaN at cells with at most 20 valid observations, else `1`. -/
def mincount {T C : ℕ} (o : Series T C) (c : Fin C) : Val :=
  if validCount o c ≤ 20 then none else some 1

/-- The flagged observation series multiplied by `mincount`. -/
def maskedObs {T C : ℕ} (raw : Series T C) : Series T C :=
  fun t c => omul (flagObs raw t c) (mincount (flagObs raw) c)

/-- Per-cell temporal mean (`.mean(dim='tdim')`). -/
def o_mean {T C : ℕ} (obsd : Series T C) (c : Fin C) : Val :=
  nanmean ((List.finRange T).map (fun t => obsd t c))

/-! ## Value-range variations (notebook cell 3b)
One `.where` line per variation; `noFilter` is the all-commented state. -/

/-- The mutually-exclusive value-range filter variations of cell 3b. -/
inductive RangeFilter where
  | noFilter | excludeLow | isolateZero | isolate015 | isolate1580 | isolate80100
deriving DecidableEq

/-- Apply one variation's `.where(..., other=nan)` to a single value. -/
def applyFilter : RangeFilter → Val → Val
  | .noFilter, v => v
  | .excludeLow, some q => if 0.15 < q then some q else none
  | .excludeLow, none => none
  | .isolateZero, some q => if q = 0 then some q else none
  | .isolateZero, none => none
  | .isolate015, some q => if 0 < q ∧ q ≤ 0.15 then some q else none
  | .isolate015, none => none
  | .isolate1580, some q => if 0.15 < q ∧ q ≤ 0.8 then some q else none
  | .isolate1580, none => none
  | .isolate80100, some q => if 0.8 < q ∧ q ≤ 1 then some q else none
  | .isolate80100, none => none

/-- The observation series the metric loop consumes: cell 3's masked
series with cell 3b's selected variation applied afterwards. -/
def pipelineObs {T C : ℕ} (f : RangeFilter) (raw : Series T C) : Series T C :=
  fun t c => applyFilter f (maskedObs raw t c)

/-- The ClimatologyMean exactly as the notebook computes it: the temporal
mean `o_mean` is taken at the end of cell 3, before the optional range
filter of cell 3b is applied, so it never sees the filter. -/
def pipelineMean {T C : ℕ} (raw : Series T C) (c : Fin C) : Val :=
  o_mean (maskedObs raw) c

/-- The ClimatologyMean as §4.2 of the design prescribes it: the
temporal mean of the series with the range filter already applied.
Stated from the spec's words for comparison with `pipelineMean`. -/
def specClimMean {T C : ℕ} (f : RangeFilter) (raw : Series T C) (c : Fin C) : Val :=
  o_mean (pipelineObs f raw) c

/-! ## ModelNormalizer (notebook cell 9, lines 636-656)
After the external bilinear regridding (`xe.Regridder`, an external
collaborator), the notebook multiplies every time slice by the land mask
and rescales by `/ 100`; the time relabel is positional. -/

/-- `/ 100` rescale with NaN propagation. -/
def odiv100 (v : Val) : Val :=
  match v with
  | some q => some (q / 100)
  | none => none

/-- Normalized model series: the regridded series multiplied by the land
mask, then rescaled from percentage to fraction. -/
def normModel {T C : ℕ} (mk : Fin C → Val) (reg : Series T C) : Series T C :=
  fun t c => odiv100 (omul (reg t c) (mk c))

/-! ## MetricEngine (notebook cell 9, lines 657-684)
All four aggregations compute `1 - (MEF_num / MEF_den)` with skipna sums
over different groupings. -/

/-- Annual numerator: skipna time sum of `(obs - model) ** 2` at a cell. -/
def MEF_num_a {T C : ℕ} (obs model : Series T C) (c : Fin C) : ℚ :=
  nansum ((List.finRange T).map (fun t => osq (osub (obs t c) (model t c))))

/-- Annual denominator: skipna time sum of `(obs - o_mean) ** 2` at a cell. -/
def MEF_den_a {T C : ℕ} (obs : Series T C) (om : Fin C → Val) (c : Fin C) : ℚ :=
  nansum ((List.finRange T).map (fun t => osq (osub (obs t c) (om c))))

/-- Annual MEF map (`MEF_a`). -/
def MEF_a {T C : ℕ} (obs model : Series T C) (om : Fin C → Val) (c : Fin C) : MEFVal :=
  oneSub (fdiv (MEF_num_a obs model c) (MEF_den_a obs om c))

/-- Monthly numerator: skipna sum over the time steps of one calendar
month (`groupby('time.month')`). -/
def MEF_num_m {T C : ℕ} (monthOf : Fin T → Fin 12) (obs model : Series T C)
    (m : Fin 12) (c : Fin C) : ℚ :=
  nansum (((List.finRange T).filter (fun t => decide (monthOf t = m))).map
    (fun t => osq (osub (obs t c) (model t c))))

/-- Monthly denominator. -/
def MEF_den_m {T C : ℕ} (monthOf : Fin T → Fin 12) (obs : Series T C)
    (om : Fin C → Val) (m : Fin 12) (c : Fin C) : ℚ :=
  nansum (((List.finRange T).filter (fun t => decide (monthOf t = m))).map
    (fun t => osq (osub (obs t c) (om c))))

/-- Monthly MEF maps (`MEF_m`). -/
def MEF_m {T C : ℕ} (monthOf : Fin T → Fin 12) (obs model : Series T C)
    (om : Fin C → Val) (m : Fin 12) (c : Fin C) : MEFVal :=
  oneSub (fdiv (MEF_num_m monthOf obs model m c) (MEF_den_m monthOf obs om m c))

/-- Seasonal numerator: skipna sum over the time steps of one season
(`groupby('time.season')`). -/
def MEF_num_s {T C : ℕ} (seasonOf : Fin T → Fin 4) (obs model : Series T C)
    (s : Fin 4) (c : Fin C) : ℚ :=
  nansum (((List.finRange T).filter (fun t => decide (seasonOf t = s))).map
    (fun t => osq (osub (obs t c) (model t c))))

/-- Seasonal denominator. -/
def MEF_den_s {T C : ℕ} (seasonOf : Fin T → Fin 4) (obs : Series T C)
    (om : Fin C → Val) (s : Fin 4) (c : Fin C) : ℚ :=
  nansum (((List.finRange T).filter (fun t => decide (seasonOf t = s))).map
    (fun t => osq (osub (obs t c) (om c))))

/-- Seasonal MEF maps (`MEF_s`). -/
def MEF_s {T C : ℕ} (seasonOf : Fin T → Fin 4) (obs model : Series T C)
    (om : Fin C → Val) (s : Fin 4) (c : Fin C) : MEFVal :=
  oneSub (fdiv (MEF_num_s seasonOf obs model s c) (MEF_den_s seasonOf obs om s c))

/-- Binned numerator: skipna spatial sum at one time step (`sum(dim=['x','y'])`). -/
def MEF_num_b {T C : ℕ} (obs model : Series T C) (t : Fin T) : ℚ :=
  nansum ((List.finRange C).map (fun c => osq (osub (obs t c) (model t c))))

/-- Binned denominator. -/
def MEF_den_b {T C : ℕ} (obs : Series T C) (om : Fin C → Val) (t : Fin T) : ℚ :=
  nansum ((List.finRange C).map (fun c => osq (osub (obs t c) (om c))))

/-- Binned MEF time series (`MEF_b`): one value per time step. -/
def MEF_b {T C : ℕ} (obs model : Series T C) (om : Fin C → Val) (t : Fin T) : MEFVal :=
  oneSub (fdiv (MEF_num_b obs model t) (MEF_den_b obs om t))

/-! ## ResultAggregator (notebook cell 9, lines 619-624 and 686-692)
`source_id` collects the third dot-component of every catalog key; the
metric loop appends one per-model dataset to a list in processing order
and `xr.concat(MEF, dim='models')` preserves that order. -/

/-- One model's MetricSet: the four MEF fields plus the model label. -/
structure MetricSet (T C : ℕ) where
  mefA : Fin C → MEFVal
  mefS : Fin 4 → Fin C → MEFVal
  mefM : Fin 12 → Fin C → MEFVal
  mefB : Fin T → MEFVal
  modelName : Option String

/-- The model label extracted from a catalog key
(`mlist[k].split('.')` then component `[2]`). -/
def modelIdOf (key : String) : Option String := (key.splitOn ".")[2]?

/-- The `source_id` accumulation loop (cell 9, first loop). -/
def source_id (mlist : List String) : List (Option String) :=
  mlist.foldl (fun acc k => acc ++ [modelIdOf k]) []

/-- One iteration of the metric loop: normalize the model's regridded
series and compute the four MEF aggregations, tagged with the label. -/
def processModel {T C : ℕ} (monthOf : Fin T → Fin 12) (seasonOf : Fin T → Fin 4)
    (obs : Series T C) (om : Fin C → Val) (mk : Fin C → Val)
    (nm : Option String) (reg : Series T C) : MetricSet T C :=
  ⟨fun c => MEF_a obs (normModel mk reg) om c,
   fun s c => MEF_s seasonOf obs (normModel mk reg) om s c,
   fun m c => MEF_m monthOf obs (normModel mk reg) om m c,
   fun t => MEF_b obs (normModel mk reg) om t,
   nm⟩

/-- The metric loop (cell 9, second loop): for each key of `mlist`, in
order, append the processed MetricSet; the j-th iteration uses
`source_id[j]` and `ddict[mlist[j]]`. -/
def mefLoop {T C : ℕ} (monthOf : Fin T → Fin 12) (seasonOf : Fin T → Fin 4)
    (obs : Series T C) (om : Fin C → Val) (mk : Fin C → Val)
    (ddict : String → Series T C) (mlist : List String) : List (MetricSet T C) :=
  ((source_id mlist).zip mlist).foldl
    (fun acc p => acc ++ [processModel monthOf seasonOf obs om mk p.1 (ddict p.2)]) []

/-! ## Per-iteration grid construction (notebook cell 9, lines 636-645)
Each iteration recomputes `ds_tgt = subset_bbox(ref_ds, **bbox)` (fixed
bounding box baked into `subF`) and `reg_bil = xe.Regridder(model_ds,
ds_tgt, "bilinear", periodic=True)`.  `subset_bbox` and `Regridder` are
external collaborators, kept abstract. -/

/-- The loop as written: both the target grid and the regridder are
rebuilt inside every iteration; the regridder construction receives the
current model's dataset as its first argument. -/
def loopGrids {R G M Re : Type} (subF : R → G) (regF : M → G → Re)
    (refDs : R) (models : List M) : List (G × Re) :=
  models.foldl (fun acc md => acc ++ [(subF refDs, regF md (subF refDs))]) []

/-- The hoisted variant: the target grid is built once before the loop. -/
def hoistedGrids {R G M Re : Type} (subF : R → G) (regF : M → G → Re)
    (refDs : R) (models : List M) : List (G × Re) :=
  let tgt := subF refDs
  models.foldl (fun acc md => acc ++ [(tgt, regF md tgt)]) []

/-! ## Concrete inputs used by witnesses and counterexamples -/

/-- Single-cell 4-month observation series `[0.1, 0.2, 0.3, 0.4]`. -/
def obsW1 : Series 4 1 := fun t _ => some (((t : ℕ) + 1 : ℚ) / 10)

/-- Single-cell 4-month model series `[0.4, 0.3, 0.2, 0.1]`. -/
def modelW1 : Series 4 1 := fun t _ => some ((4 - (t : ℕ) : ℚ) / 10)

/-- 21-month single-cell raw observations: twenty months at `0.1` and
one month at `0.5` (all valid, so the min-count mask keeps the cell). -/
def rawVar : Series 21 1 := fun t _ => some (if t.val = 20 then 1/2 else 1/10)

/-- 21-month single-cell raw observations, constant `0.5`. -/
def rawConst : Series 21 1 := fun _ _ => some (1/2)

/-- An all-ocean single-cell land-mask field. -/
def lmaskOcean : Fin 1 → ℚ := fun _ => 0

/-- An all-land single-cell land-mask field. -/
def lmaskLand : Fin 1 → ℚ := fun _ => 1

/-- A regridded model series constant at 30 (percent). -/
def regConst : Series 21 1 := fun _ _ => some 30

/-- A 2-month single-cell observation series that is entirely NaN. -/
def obsNone2 : Series 2 1 := fun _ _ => none

/-- A 2-month single-cell model series constant at 1. -/
def modelOne2 : Series 2 1 := fun _ _ => some 1

/-- A 2-month single-cell regridded model series constant at 50. -/
def regFifty2 : Series 2 1 := fun _ _ => some 50

/-- A climatology that is NaN at the single cell. -/
def omNone : Fin 1 → Val := fun _ => none

/-- A trivial month labeling for a 2-month series. -/
def monthOf2 : Fin 2 → Fin 12 := fun _ => 0

/-- A trivial season labeling for a 2-month series. -/
def seasonOf2 : Fin 2 → Fin 4 := fun _ => 0

/-- Month labeling of a 24-month series: two Januaries, two
Februaries, and so on. -/
def monthOf24 : Fin 24 → Fin 12 := fun t => ⟨t.val % 12, by omega⟩

/-- Season labeling of a 24-month series cycling through the 4 seasons. -/
def seasonOf24 : Fin 24 → Fin 4 := fun t => ⟨t.val % 4, by omega⟩

/-- 24-month single-cell observations: `0.1` in the first year and
`0.3` in the second, so every month and season group has variance. -/
def obsW5 : Series 24 1 := fun t _ => some (if t.val < 12 then 1/10 else 3/10)

/-- The model series equal to `obsW5`. -/
def modelW5 : Series 24 1 := obsW5

/-- A climatology constant at `0.2` for the 24-month witness. -/
def omW5 : Fin 1 → Val := fun _ => some (1/5)

/-- 2-month single-cell raw observations constant `0.5`: only 2 valid
months, so the min-count mask wipes the cell. -/
def rawLow : Series 2 1 := fun _ _ => some (1/2)

/-! ## Helper lemmas -/

lemma nansum_nil : nansum [] = 0 := rfl

lemma nansum_cons (v : Val) (l : List Val) :
    nansum (v :: l) = contrib v + nansum l := rfl

lemma nansum_map_some {α : Type} (g : α → ℚ) :
    ∀ l : List α, nansum (l.map (fun x => some (g x))) = (l.map g).sum := by
  intro l
  induction l with
  | nil => rfl
  | cons x l ih => simp [nansum_cons, ih, contrib]

lemma nansum_eq_zero {l : List Val} (h : ∀ v ∈ l, contrib v = 0) :
    nansum l = 0 := by
  induction l with
  | nil => rfl
  | cons v l ih =>
      rw [nansum_cons, h v (List.mem_cons_self v l),
        ih (fun w hw => h w (List.mem_cons_of_mem v hw)), add_zero]

lemma contrib_sq_self_zero (v : Val) : contrib (osq (osub v v)) = 0 := by
  cases v with
  | none => rfl
  | some q => simp [osq, osub, omul, contrib]

lemma osub_none_left (x : Val) : osub none x = none := by
  cases x <;> rfl

lemma omul_none_right (v : Val) : omul v none = none := by
  cases v <;> rfl

lemma applyFilter_none (f : RangeFilter) : applyFilter f none = none := by
  cases f <;> rfl

lemma nanmean_all_none {l : List Val} (h : ∀ v ∈ l, v = none) :
    nanmean l = none := by
  have hc : nancount l = 0 := by
    unfold nancount
    rw [List.filter_eq_nil_iff.mpr (fun v hv => by rw [h v hv]; simp), List.length_nil]
  simp [nanmean, hc]

lemma nansum_fiberwise {α μ : Type} [Fintype μ] [DecidableEq μ]
    (F : α → μ) (f : α → Val) :
    ∀ l : List α,
      (∑ m : μ, nansum ((l.filter (fun x => decide (F x = m))).map f))
        = nansum (l.map f) := by
  intro l
  induction l with
  | nil => simp [nansum]
  | cons x l ih =>
      have step : ∀ m : μ,
          nansum (((x :: l).filter (fun y => decide (F y = m))).map f)
            = (if F x = m then contrib (f x) else 0)
              + nansum ((l.filter (fun y => decide (F y = m))).map f) := by
        intro m
        by_cases hm : F x = m
        · simp [List.filter_cons, hm, nansum_cons]
        · simp [List.filter_cons, hm]
      simp only [step]
      rw [Finset.sum_add_distrib, ih, List.map_cons, nansum_cons,
        Finset.sum_ite_eq]
      simp

lemma foldl_snoc_eq_map {α β : Type} (g : α → β) :
    ∀ (l : List α) (acc : List β),
      l.foldl (fun a x => a ++ [g x]) acc = acc ++ l.map g := by
  intro l
  induction l with
  | nil => intro acc; simp
  | cons x l ih => intro acc; simp [ih, List.foldl_cons]

lemma map_zip_self {α β : Type} (e : α → β) :
    ∀ l : List α, (l.map e).zip l = l.map (fun k => (e k, k)) := by
  intro l
  induction l with
  | nil => rfl
  | cons x l ih => simp [ih]

/-- Shared propagation fact: a cell whose observation series is entirely
NaN has zero numerator and denominator in every temporal grouping, hence
NaN in the annual, seasonal and monthly outputs, whatever the model and
climatology. -/
lemma mef_obs_all_none {T C : ℕ} (monthOf : Fin T → Fin 12)
    (seasonOf : Fin T → Fin 4) (obs model : Series T C) (om : Fin C → Val)
    (c : Fin C) (h : ∀ t, obs t c = none) :
    MEF_a obs model om c = .nan
    ∧ (∀ s, MEF_s seasonOf obs model om s c = .nan)
    ∧ (∀ m, MEF_m monthOf obs model om m c = .nan) := by
  have hz : ∀ (t : Fin T) (x : Val), contrib (osq (osub (obs t c) x)) = 0 := by
    intro t x
    rw [h t, osub_none_left]
    rfl
  have hzero : ∀ l : List (Fin T), ∀ x : Fin C → Val,
      nansum (l.map (fun t => osq (osub (obs t c) (x c)))) = 0 := by
    intro l x
    apply nansum_eq_zero
    intro v hv
    obtain ⟨t, _, rfl⟩ := List.mem_map.mp hv
    exact hz t (x c)
  have hzero2 : ∀ l : List (Fin T),
      nansum (l.map (fun t => osq (osub (obs t c) (model t c)))) = 0 := by
    intro l
    apply nansum_eq_zero
    intro v hv
    obtain ⟨t, _, rfl⟩ := List.mem_map.mp hv
    exact hz t (model t c)
  refine ⟨?_, ?_, ?_⟩
  · simp [MEF_a, MEF_num_a, MEF_den_a, hzero, hzero2, fdiv, oneSub]
  · intro s
    simp [MEF_s, MEF_num_s, MEF_den_s, hzero, hzero2, fdiv, oneSub]
  · intro m
    simp [MEF_m, MEF_num_m, MEF_den_m, hzero, hzero2, fdiv, oneSub]

/-! ## Claim theorems -/

/-- Claim C1: for every model and grid cell with real-valued (non-NaN)
observations, model values and climatology, the annual metric `MEF_a`
equals `1 - Σ(obs - model)^2 / Σ(obs - obsmean)^2`, with the sums over
all time steps, where `obsmean` is the ClimatologyMean `o_mean` of the
observation series. -/
theorem mef_annual_ratio_form {T C : ℕ} (obs model : Series T C) (c : Fin C)
    (a b : Fin T → ℚ) (o : ℚ)
    (ha : ∀ t, obs t c = some (a t)) (hb : ∀ t, model t c = some (b t))
    (ho : o_mean obs c = some o)
    (hd : (∑ t : Fin T, (a t - o) ^ 2) ≠ 0) :
    MEF_a obs model (o_mean obs) c
      = .val (1 - (∑ t : Fin T, (a t - b t) ^ 2) / (∑ t : Fin T, (a t - o) ^ 2)) := by
  have hnum : MEF_num_a obs model c = ∑ t : Fin T, (a t - b t) ^ 2 := by
    unfold MEF_num_a
    have he : (fun t => osq (osub (obs t c) (model t c)))
        = fun t => some ((fun t => (a t - b t) ^ 2) t) := by
      funext t
      rw [ha t, hb t]
      simp [osq, osub, omul, pow_two]
    rw [he, nansum_map_some, ← Fin.sum_univ_def]
  have hden : MEF_den_a obs (o_mean obs) c = ∑ t : Fin T, (a t - o) ^ 2 := by
    unfold MEF_den_a
    have he : (fun t => osq (osub (obs t c) (o_mean obs c)))
        = fun t => some ((fun t => (a t - o) ^ 2) t) := by
      funext t
      rw [ha t, ho]
      simp [osq, osub, omul, pow_two]
    rw [he, nansum_map_some, ← Fin.sum_univ_def]
  rw [MEF_a, hnum, hden, fdiv, if_neg hd, oneSub]

/-- Witness for C1: the spec's concrete scenario. On a single-cell grid
with obs `[0.1, 0.2, 0.3, 0.4]` and model `[0.4, 0.3, 0.2, 0.1]`, the
ClimatologyMean is `0.25` and `MEF_a = 1 - 0.20/0.05 = -3`. -/
theorem mef_annual_ratio_form_witness :
    MEF_a obsW1 modelW1 (o_mean obsW1) 0 = .val (-3) := by
  have h := mef_annual_ratio_form obsW1 modelW1 0
    (fun t => ((t : ℕ) + 1 : ℚ) / 10) (fun t => (4 - (t : ℕ) : ℚ) / 10) (1/4)
    (fun t => rfl) (fun t => rfl)
    (by with_unfolding_all decide) (by with_unfolding_all decide)
  rw [h]
  with_unfolding_all decide

/-- Claim C6: for every model and cell, the 12 per-calendar-month
numerator totals sum to the annual numerator total exactly, the 4
seasonal totals likewise, and the same holds for the denominators,
because the month and season labelings partition the time axis. -/
theorem group_sums_partition_annual {T C : ℕ} (monthOf : Fin T → Fin 12)
    (seasonOf : Fin T → Fin 4) (obs model : Series T C) (om : Fin C → Val)
    (c : Fin C) :
    (∑ m : Fin 12, MEF_num_m monthOf obs model m c) = MEF_num_a obs model c
    ∧ (∑ s : Fin 4, MEF_num_s seasonOf obs model s c) = MEF_num_a obs model c
    ∧ (∑ m : Fin 12, MEF_den_m monthOf obs om m c) = MEF_den_a obs om c
    ∧ (∑ s : Fin 4, MEF_den_s seasonOf obs om s c) = MEF_den_a obs om c := by
  refine ⟨?_, ?_, ?_, ?_⟩
  · exact nansum_fiberwise monthOf
      (fun t => osq (osub (obs t c) (model t c))) (List.finRange T)
  · exact nansum_fiberwise seasonOf
      (fun t => osq (osub (obs t c) (model t c))) (List.finRange T)
  · exact nansum_fiberwise monthOf
      (fun t => osq (osub (obs t c) (om c))) (List.finRange T)
  · exact nansum_fiberwise seasonOf
      (fun t => osq (osub (obs t c) (om c))) (List.finRange T)

/-- Claim C2 (code bug): evaluation of the code at the failing input.
With 21 valid months (twenty at `0.1`, one at `0.5`) and the exclude-low
variation selected, the ClimatologyMean the notebook uses is the mean of
the unfiltered series (`5/42 ≈ 0.119`), not the mean of the
range-filtered series (`0.5`): cell 3 computes `o_mean` before cell 3b
applies the filter, contradicting both the spec and the notebook's own
comment that the mean must be taken after excluding values. -/
theorem climMean_before_filter_eval :
    pipelineMean rawVar 0 = some (5/42)
    ∧ specClimMean .excludeLow rawVar 0 = some (1/2)
    ∧ pipelineMean rawVar 0 ≠ specClimMean .excludeLow rawVar 0 := by
  refine ⟨?_, ?_, ?_⟩ <;> with_unfolding_all decide

/-- Counterexample to claim C3 as stated: a reachable input with a
denominator of exactly zero whose MEF value is negative infinity, not
NaN. The observations are constant `0.5` over 21 valid months (so the
denominator vanishes while the cell stays unmasked) and the regridded
model is constant 30 percent over ocean, giving a positive numerator:
`1 - num/0 = -inf`. -/
theorem zero_den_nonzero_num_gives_ninf :
    MEF_den_a (pipelineObs .noFilter rawConst) (pipelineMean rawConst) 0 = 0
    ∧ MEF_num_a (pipelineObs .noFilter rawConst)
        (normModel (mask lmaskOcean) regConst) 0 ≠ 0
    ∧ MEF_a (pipelineObs .noFilter rawConst)
        (normModel (mask lmaskOcean) regConst) (pipelineMean rawConst) 0
        = MEFVal.ninf
    ∧ MEF_a (pipelineObs .noFilter rawConst)
        (normModel (mask lmaskOcean) regConst) (pipelineMean rawConst) 0
        ≠ MEFVal.nan := by
  refine ⟨?_, ?_, ?_, ?_⟩ <;> with_unfolding_all decide

/-- Claim C3 (amended): for every cell of the annual, monthly and
seasonal outputs and every time step of the binned output, if the
denominator sum is exactly zero and the numerator sum is also zero — as
always happens for an entirely masked cell, where both skip-NaN sums are
empty — the resulting MEF value is NaN; no error is raised and no
clamping to a finite value occurs. (A zero denominator with a positive
numerator instead yields negative infinity.) -/
theorem zero_den_zero_num_gives_nan {T C : ℕ} (monthOf : Fin T → Fin 12)
    (seasonOf : Fin T → Fin 4) (obs model : Series T C) (om : Fin C → Val)
    (c : Fin C) (s : Fin 4) (m : Fin 12) (t : Fin T)
    (h1 : MEF_den_a obs om c = 0) (h2 : MEF_num_a obs model c = 0)
    (h3 : MEF_den_s seasonOf obs om s c = 0)
    (h4 : MEF_num_s seasonOf obs model s c = 0)
    (h5 : MEF_den_m monthOf obs om m c = 0)
    (h6 : MEF_num_m monthOf obs model m c = 0)
    (h7 : MEF_den_b obs om t = 0) (h8 : MEF_num_b obs model t = 0) :
    MEF_a obs model om c = .nan
    ∧ MEF_s seasonOf obs model om s c = .nan
    ∧ MEF_m monthOf obs model om m c = .nan
    ∧ MEF_b obs model om t = .nan := by
  refine ⟨?_, ?_, ?_, ?_⟩
  · rw [MEF_a, h1, h2, fdiv]; rfl
  · rw [MEF_s, h3, h4, fdiv]; rfl
  · rw [MEF_m, h5, h6, fdiv]; rfl
  · rw [MEF_b, h7, h8, fdiv]; rfl

/-- Witness for amended C3: an entirely NaN cell (for instance one fully
masked) has zero sums in every grouping and all four outputs are NaN. -/
theorem zero_den_zero_num_gives_nan_witness :
    MEF_a obsNone2 modelOne2 omNone 0 = .nan
    ∧ MEF_s seasonOf2 obsNone2 modelOne2 omNone 0 0 = .nan
    ∧ MEF_m monthOf2 obsNone2 modelOne2 omNone 0 0 = .nan
    ∧ MEF_b obsNone2 modelOne2 omNone 0 = .nan :=
  zero_den_zero_num_gives_nan monthOf2 seasonOf2 obsNone2 modelOne2 omNone
    0 0 0 0
    (by with_unfolding_all decide) (by with_unfolding_all decide)
    (by with_unfolding_all decide) (by with_unfolding_all decide)
    (by with_unfolding_all decide) (by with_unfolding_all decide)
    (by with_unfolding_all decide) (by with_unfolding_all decide)

/-- Claim C5: if the normalized model series equals the observation
series at a cell at every time step and every grouping's denominator is
nonzero there, then the annual, seasonal and monthly MEF values at that
cell all equal 1. -/
theorem identity_model_gives_one {T C : ℕ} (monthOf : Fin T → Fin 12)
    (seasonOf : Fin T → Fin 4) (obs model : Series T C) (om : Fin C → Val)
    (c : Fin C)
    (hm : ∀ t, model t c = obs t c)
    (hda : MEF_den_a obs om c ≠ 0)
    (hds : ∀ s, MEF_den_s seasonOf obs om s c ≠ 0)
    (hdm : ∀ m, MEF_den_m monthOf obs om m c ≠ 0) :
    MEF_a obs model om c = .val 1
    ∧ (∀ s, MEF_s seasonOf obs model om s c = .val 1)
    ∧ (∀ m, MEF_m monthOf obs model om m c = .val 1) := by
  have hnum : ∀ l : List (Fin T),
      nansum (l.map (fun t => osq (osub (obs t c) (model t c)))) = 0 := by
    intro l
    apply nansum_eq_zero
    intro v hv
    obtain ⟨t, _, rfl⟩ := List.mem_map.mp hv
    rw [hm t]
    exact contrib_sq_self_zero (obs t c)
  refine ⟨?_, ?_, ?_⟩
  · have h0 : MEF_num_a obs model c = 0 := hnum (List.finRange T)
    rw [MEF_a, h0, fdiv, if_neg hda, oneSub, zero_div, sub_zero]
  · intro s
    have h0 : MEF_num_s seasonOf obs model s c = 0 := hnum _
    rw [MEF_s, h0, fdiv, if_neg (hds s), oneSub, zero_div, sub_zero]
  · intro m
    have h0 : MEF_num_m monthOf obs model m c = 0 := hnum _
    rw [MEF_m, h0, fdiv, if_neg (hdm m), oneSub, zero_div, sub_zero]

/-- Witness for C5: a 24-month single-cell series with variance in every
month and season group; the model equal to the observations scores 1 in
the annual output and in the sampled seasonal and monthly groups. -/
theorem identity_model_gives_one_witness :
    MEF_a obsW5 modelW5 omW5 0 = .val 1
    ∧ MEF_s seasonOf24 obsW5 modelW5 omW5 0 0 = .val 1
    ∧ MEF_m monthOf24 obsW5 modelW5 omW5 0 0 = .val 1 := by
  have h := identity_model_gives_one monthOf24 seasonOf24 obsW5 modelW5 omW5 0
    (fun t => rfl)
    (by with_unfolding_all decide)
    (by with_unfolding_all decide)
    (by with_unfolding_all decide)
  exact ⟨h.1, h.2.1 0, h.2.2 0⟩

/-- Counterexample to claim C7 as stated: the land mask is multiplied
onto the model series only, so a land cell at which the observation
series has valid values is not NaN in the annual output — the numerator
is an empty skip-NaN sum (0), the denominator is positive, and
`MEF_a = 1 - 0/den = 1`. -/
theorem land_cell_valid_obs_gives_one :
    0 < lmaskLand 0
    ∧ MEF_a (pipelineObs .noFilter rawVar) (normModel (mask lmaskLand) regConst)
        (pipelineMean rawVar) 0 = MEFVal.val 1
    ∧ MEF_a (pipelineObs .noFilter rawVar) (normModel (mask lmaskLand) regConst)
        (pipelineMean rawVar) 0 ≠ MEFVal.nan := by
  refine ⟨?_, ?_, ?_⟩ <;> with_unfolding_all decide

/-- Claim C7 (amended): a land cell (land-mask value NaN) is NaN in the
normalized model series at every time step; if additionally the
observation series is NaN there at every time step — as holds for the
real observation product, whose land flag values exceed the validity
threshold — the cell is NaN in the annual, seasonal and monthly outputs
and contributes no finite term to either spatial sum of the binned
output. The land mask alone only nulls the model series. -/
theorem land_cell_nan_obs_propagates {T C : ℕ} (monthOf : Fin T → Fin 12)
    (seasonOf : Fin T → Fin 4) (lmask : Fin C → ℚ) (reg : Series T C)
    (obs : Series T C) (om : Fin C → Val) (c : Fin C)
    (hl : 0 < lmask c) (h : ∀ t, obs t c = none) :
    (∀ t, normModel (mask lmask) reg t c = none)
    ∧ MEF_a obs (normModel (mask lmask) reg) om c = .nan
    ∧ (∀ s, MEF_s seasonOf obs (normModel (mask lmask) reg) om s c = .nan)
    ∧ (∀ m, MEF_m monthOf obs (normModel (mask lmask) reg) om m c = .nan)
    ∧ (∀ t, osq (osub (obs t c) (normModel (mask lmask) reg t c)) = none
          ∧ osq (osub (obs t c) (om c)) = none) := by
  have hmodel : ∀ t, normModel (mask lmask) reg t c = none := by
    intro t
    rw [normModel, mask, if_pos hl, omul_none_right]
    rfl
  have hmef := mef_obs_all_none monthOf seasonOf obs
    (normModel (mask lmask) reg) om c h
  refine ⟨hmodel, hmef.1, hmef.2.1, hmef.2.2, ?_⟩
  intro t
  rw [h t, osub_none_left, osub_none_left]
  exact ⟨rfl, rfl⟩

/-- Witness for amended C7: a single land cell with all-NaN observations
is NaN in the sampled annual, seasonal and monthly outputs and yields
NaN terms for the binned sums. -/
theorem land_cell_nan_obs_propagates_witness :
    normModel (mask lmaskLand) regFifty2 0 0 = none
    ∧ MEF_a obsNone2 (normModel (mask lmaskLand) regFifty2) omNone 0 = .nan
    ∧ MEF_s seasonOf2 obsNone2 (normModel (mask lmaskLand) regFifty2) omNone 0 0 = .nan
    ∧ MEF_m monthOf2 obsNone2 (normModel (mask lmaskLand) regFifty2) omNone 0 0 = .nan
    ∧ osq (osub (obsNone2 0 0) (normModel (mask lmaskLand) regFifty2 0 0)) = none
    ∧ osq (osub (obsNone2 0 0) (omNone 0)) = none := by
  have h := land_cell_nan_obs_propagates monthOf2 seasonOf2 lmaskLand regFifty2
    obsNone2 omNone 0 (by with_unfolding_all decide) (fun t => rfl)
  exact ⟨h.1 0, h.2.1, h.2.2.1 0, h.2.2.2.1 0, (h.2.2.2.2 0).1, (h.2.2.2.2 0).2⟩

/-- Claim C8: a cell with at most 20 valid (positive) observational
months is masked to NaN for the entire observation series (whatever
range variation is selected), is NaN in the ClimatologyMean, and is NaN
in every downstream per-cell MEF output for every model. -/
theorem low_count_cell_propagates_nan {T C : ℕ} (monthOf : Fin T → Fin 12)
    (seasonOf : Fin T → Fin 4) (f : RangeFilter) (raw model : Series T C)
    (c : Fin C) (h : validCount (flagObs raw) c ≤ 20) :
    (∀ t, maskedObs raw t c = none)
    ∧ (∀ t, pipelineObs f raw t c = none)
    ∧ pipelineMean raw c = none
    ∧ MEF_a (pipelineObs f raw) model (pipelineMean raw) c = .nan
    ∧ (∀ s, MEF_s seasonOf (pipelineObs f raw) model (pipelineMean raw) s c = .nan)
    ∧ (∀ m, MEF_m monthOf (pipelineObs f raw) model (pipelineMean raw) m c = .nan) := by
  have hmask : ∀ t, maskedObs raw t c = none := by
    intro t
    rw [maskedObs, mincount, if_pos h, omul_none_right]
  have hobs : ∀ t, pipelineObs f raw t c = none := by
    intro t
    rw [pipelineObs, hmask t, applyFilter_none]
  have hmean : pipelineMean raw c = none := by
    rw [pipelineMean, o_mean]
    apply nanmean_all_none
    intro v hv
    obtain ⟨t, _, rfl⟩ := List.mem_map.mp hv
    exact hmask t
  have hmef := mef_obs_all_none monthOf seasonOf (pipelineObs f raw) model
    (pipelineMean raw) c hobs
  exact ⟨hmask, hobs, hmean, hmef.1, hmef.2.1, hmef.2.2⟩

/-- Witness for C8: a 2-month series has at most 20 valid months, so the
cell is wiped, the ClimatologyMean is NaN, and the sampled per-cell MEF
outputs are NaN. -/
theorem low_count_cell_propagates_nan_witness :
    maskedObs rawLow 0 0 = none
    ∧ pipelineObs .noFilter rawLow 0 0 = none
    ∧ pipelineMean rawLow 0 = none
    ∧ MEF_a (pipelineObs .noFilter rawLow) modelOne2 (pipelineMean rawLow) 0 = .nan
    ∧ MEF_s seasonOf2 (pipelineObs .noFilter rawLow) modelOne2 (pipelineMean rawLow) 0 0 = .nan
    ∧ MEF_m monthOf2 (pipelineObs .noFilter rawLow) modelOne2 (pipelineMean rawLow) 0 0 = .nan := by
  have h := low_count_cell_propagates_nan monthOf2 seasonOf2 .noFilter rawLow
    modelOne2 0 (by with_unfolding_all decide)
  exact ⟨h.1 0, h.2.1 0, h.2.2.1, h.2.2.2.1, h.2.2.2.2.1 0, h.2.2.2.2.2 0⟩

/-- Claim C9: the compiled list of MetricSets is exactly the map of
`processModel` over the input key list: its length equals the number of
processed models, its order matches the processing order of `mlist`, and
each entry is labeled with the model name extracted from its key. -/
theorem compiled_order_and_labels {T C : ℕ} (monthOf : Fin T → Fin 12)
    (seasonOf : Fin T → Fin 4) (obs : Series T C) (om : Fin C → Val)
    (mk : Fin C → Val) (ddict : String → Series T C) (mlist : List String) :
    mefLoop monthOf seasonOf obs om mk ddict mlist
      = mlist.map (fun k =>
          processModel monthOf seasonOf obs om mk (modelIdOf k) (ddict k))
    ∧ (mefLoop monthOf seasonOf obs om mk ddict mlist).length = mlist.length
    ∧ (mefLoop monthOf seasonOf obs om mk ddict mlist).map
          (fun d => d.modelName)
        = mlist.map (fun k => modelIdOf k) := by
  have h1 : mefLoop monthOf seasonOf obs om mk ddict mlist
      = mlist.map (fun k =>
          processModel monthOf seasonOf obs om mk (modelIdOf k) (ddict k)) := by
    unfold mefLoop source_id
    rw [foldl_snoc_eq_map modelIdOf mlist, List.nil_append, map_zip_self,
      foldl_snoc_eq_map, List.nil_append, List.map_map]
    rfl
  refine ⟨h1, ?_, ?_⟩
  · rw [h1, List.length_map]
  · rw [h1, List.map_map]
    rfl

/-- Counterexample to claim C10 as stated: the regridder is built from
the current model's dataset as well as the target grid, so with two
models on different native grids the regridder of the second iteration
differs from that of the first (instantiating the external constructors
as pairing, on natural-number stand-ins). -/
theorem regridder_varies_across_iterations :
    loopGrids (fun r => r) (fun md tgt => (md, tgt)) (0 : ℕ) [1, 2]
      = [(0, (1, 0)), (0, (2, 0))]
    ∧ ((1, 0) : ℕ × ℕ) ≠ ((2, 0) : ℕ × ℕ) := by
  exact ⟨rfl, by decide⟩

/-- Claim C10 (amended): the target grid built inside the per-model loop
is identical in every iteration — it depends only on the immutable
reference dataset and the fixed bounding box — so rebuilding it per
model is observationally equivalent to hoisting its construction out of
the loop; the regridder, by contrast, also depends on the current
model's native grid. -/
theorem target_grid_loop_invariant {R G M Re : Type} (subF : R → G)
    (regF : M → G → Re) (refDs : R) (models : List M) :
    loopGrids subF regF refDs models = hoistedGrids subF regF refDs models
    ∧ (loopGrids subF regF refDs models).map Prod.fst
        = models.map (fun _ => subF refDs) := by
  refine ⟨rfl, ?_⟩
  unfold loopGrids
  rw [foldl_snoc_eq_map, List.nil_append, List.map_map]
  rfl
